import Mathlib

/-!
Shallow embedding of the pi-traffic-light mode-arbitration core
(`state.py`, `controller.py`, `modes.py`).

Colors and mode tags are the Python strings themselves.  Wall-clock
timestamps, elapsed times and sleep intervals (Python floats used only
for comparison and subtraction) are modelled as rationals.  The GPIO
hardware is modelled by a trace of calls to `hardware.set_state`,
together with a boolean `hwOk` saying whether that call raises
(`set_light_state` catches the exception and then does not advance
`current_color`).  Side inputs a handler draws from the runtime —
`time()`, `random.choice`, `datetime.now().hour`, and whether the
hardware write succeeds — are collected in an `Env` record.
-/

namespace TrafficLight

/-- One step of the SOS blink pattern: a color tag and a duration in
seconds, mirroring the `{'state': ..., 'duration': ...}` dicts of
`SharedState.mode_state['sos_pattern']` in `state.py`. -/
structure SosStep where
  state : String
  duration : ℚ
deriving DecidableEq

/-- The fixed 18-step SOS pattern initialised in
`SharedState.mode_state['sos_pattern']` (`state.py`). -/
def default_sos_pattern : List SosStep :=
  [⟨"all_on", 2/10⟩, ⟨"off", 2/10⟩,
   ⟨"all_on", 2/10⟩, ⟨"off", 2/10⟩,
   ⟨"all_on", 2/10⟩, ⟨"off", 4/10⟩,
   ⟨"all_on", 6/10⟩, ⟨"off", 2/10⟩,
   ⟨"all_on", 6/10⟩, ⟨"off", 2/10⟩,
   ⟨"all_on", 6/10⟩, ⟨"off", 4/10⟩,
   ⟨"all_on", 2/10⟩, ⟨"off", 2/10⟩,
   ⟨"all_on", 2/10⟩, ⟨"off", 2/10⟩,
   ⟨"all_on", 2/10⟩, ⟨"off", 15/10⟩]

/-- The `SharedState` dataclass of `state.py`.  The `mode_state` dict is
flattened into its three scratch keys plus the SOS pattern; the
producer dicts `weather_status`, `space_weather_status` and
`traffic_status` are flattened into the fields the handlers read
(`.get('temp')`, `.get('condition')`, `.get('kp_index')`,
`.get('avg_delay')`), each an `Option` since `.get` on a missing key
yields `None`. -/
structure SharedState where
  target_mode : String
  target_manual_color : String
  current_mode : String
  current_color : String
  last_state_change_time : ℚ
  s_bahn_minutes_away : Int
  weather_temp : Option ℚ
  weather_condition : Option String
  iracing_light_status : String
  space_weather_kp : Option Int
  traffic_avg_delay : Option ℚ
  next_auto_state : String
  sos_index : Nat
  race_step : Nat
  sos_pattern : List SosStep
  running : Bool
deriving DecidableEq

/-- The dataclass defaults of `SharedState` (`state.py`); `t0` is the
value produced by the `default_factory=time` of
`last_state_change_time`. -/
def SharedState.init (t0 : ℚ) : SharedState where
  target_mode := "auto"
  target_manual_color := "off"
  current_mode := "auto"
  current_color := "unknown"
  last_state_change_time := t0
  s_bahn_minutes_away := -1
  weather_temp := none
  weather_condition := none
  iracing_light_status := "black"
  space_weather_kp := none
  traffic_avg_delay := none
  next_auto_state := "green"
  sos_index := 0
  race_step := 0
  sos_pattern := default_sos_pattern
  running := true

/-- A `TrafficLightController` together with its hardware: `hw` is the
trace of color tags passed to `hardware.set_state`, most recent
last (every call is recorded, whether or not it raises). -/
structure Ctrl where
  state : SharedState
  hw : List String
deriving DecidableEq

/-- Runtime inputs consumed during one handler invocation: the value of
`time()`, whether `hardware.set_state` succeeds, the draw of
`random.choice` in party mode, and `datetime.now().hour` in
biergarten mode. -/
structure Env where
  now : ℚ
  hwOk : Bool
  party_choice : String
  local_hour : Int
deriving DecidableEq

/-- Timing constants of `TimingConfig` (`config.py`). -/
def AUTO_GREEN_DURATION : ℚ := 20

/-- `TimingConfig.AUTO_YELLOW_DURATION` (`config.py`). -/
def AUTO_YELLOW_DURATION : ℚ := 3

/-- `TimingConfig.AUTO_RED_DURATION` (`config.py`). -/
def AUTO_RED_DURATION : ℚ := 20

/-- `TimingConfig.AUTO_RED_YELLOW_DURATION` (`config.py`). -/
def AUTO_RED_YELLOW_DURATION : ℚ := 2

/-- `TimingConfig.EMERGENCY_BLINK_INTERVAL` (`config.py`). -/
def EMERGENCY_BLINK_INTERVAL : ℚ := 1/2

/-- `TimingConfig.PARTY_BLINK_INTERVAL` (`config.py`). -/
def PARTY_BLINK_INTERVAL : ℚ := 8/100

/-- `TimingConfig.CONTROLLER_LOOP_SLEEP` (`config.py`). -/
def CONTROLLER_LOOP_SLEEP : ℚ := 1/5

/-- `TrafficLightController.set_light_state` (`controller.py`
lines 126-143): if `current_color` already equals `color` it returns at
once (no GPIO call); otherwise it calls `hardware.set_state(color)` and,
only when that call does not raise (`hwOk = true`), advances
`current_color`; a raised error is caught and logged, never
propagated. -/
def set_light_state (hwOk : Bool) (color : String) (c : Ctrl) : Ctrl :=
  if c.state.current_color = color then c
  else if hwOk then
    { state := { c.state with current_color := color }, hw := c.hw ++ [color] }
  else
    { c with hw := c.hw ++ [color] }

/-- `TrafficLightController.set_mode` (`controller.py` lines 145-159):
selecting the currently active mode toggles off to `idle`, anything
else becomes the new target. -/
def set_mode (mode : String) (c : Ctrl) : Ctrl :=
  if c.state.current_mode = mode then
    { c with state := { c.state with target_mode := "idle" } }
  else
    { c with state := { c.state with target_mode := mode } }

/-- `TrafficLightController._transition_to_mode` (`controller.py`
lines 232-255): records the new mode, unconditionally stamps
`last_state_change_time = time()`, then runs the mode-entry action. -/
def transition_to_mode (now : ℚ) (hwOk : Bool) (new_mode : String) (c : Ctrl) : Ctrl :=
  let c := { c with state :=
    { c.state with current_mode := new_mode, last_state_change_time := now } }
  if new_mode = "auto" then
    let c := set_light_state hwOk "red" c
    { c with state := { c.state with next_auto_state := "red_and_yellow" } }
  else if new_mode = "sos" then
    let c := { c with state := { c.state with sos_index := 0 } }
    set_light_state hwOk "off" c
  else if new_mode = "racing" then
    let c := { c with state := { c.state with race_step := 0 } }
    set_light_state hwOk "off" c
  else if new_mode = "idle" then
    set_light_state hwOk "off" c
  else c

/-- The pre-loop initialisation of `TrafficLightController.run`
(`controller.py` lines 202-204): force the light to green and stamp
`last_state_change_time`. -/
def run_start (now : ℚ) (hwOk : Bool) (c : Ctrl) : Ctrl :=
  let c := set_light_state hwOk "green" c
  { c with state := { c.state with last_state_change_time := now } }

/-- Python `needle in hay` on strings (substring containment), used by
`handle_biergarten_mode`. -/
def strContains (hay needle : String) : Bool :=
  decide (needle.data <:+: hay.data)

/-- `handle_auto_mode` (`modes.py` lines 10-20): the 4-phase cycle.
Each committing branch also re-stamps `last_state_change_time =
time()`. -/
def handle_auto_mode (env : Env) (elapsed : ℚ) (c : Ctrl) : Ctrl × Option ℚ :=
  let col := c.state.current_color
  if col = "green" ∧ elapsed > AUTO_GREEN_DURATION then
    let c := set_light_state env.hwOk "yellow" c
    ({ c with state := { c.state with next_auto_state := "red", last_state_change_time := env.now } }, none)
  else if col = "yellow" ∧ elapsed > AUTO_YELLOW_DURATION then
    let c := set_light_state env.hwOk c.state.next_auto_state c
    ({ c with state := { c.state with last_state_change_time := env.now } }, none)
  else if col = "red" ∧ elapsed > AUTO_RED_DURATION then
    let c := set_light_state env.hwOk "red_and_yellow" c
    ({ c with state := { c.state with next_auto_state := "green", last_state_change_time := env.now } }, none)
  else if col = "red_and_yellow" ∧ elapsed > AUTO_RED_YELLOW_DURATION then
    let c := set_light_state env.hwOk c.state.next_auto_state c
    ({ c with state := { c.state with last_state_change_time := env.now } }, none)
  else (c, none)

/-- `handle_party_mode` (`modes.py` lines 22-23): commit the random
draw, return the party cadence. -/
def handle_party_mode (env : Env) (_elapsed : ℚ) (c : Ctrl) : Ctrl × Option ℚ :=
  (set_light_state env.hwOk env.party_choice c, some PARTY_BLINK_INTERVAL)

/-- `handle_emergency_mode` (`modes.py` lines 25-26): toggle
yellow/off, return the emergency cadence. -/
def handle_emergency_mode (env : Env) (_elapsed : ℚ) (c : Ctrl) : Ctrl × Option ℚ :=
  (set_light_state env.hwOk
    (if c.state.current_color ≠ "yellow" then "yellow" else "off") c,
   some EMERGENCY_BLINK_INTERVAL)

/-- `handle_sos_mode` (`modes.py` lines 28-32).  `pattern[idx]` raises
`IndexError` when the index is out of range, which would escape the
handler: that outcome is `none`. -/
def handle_sos_mode (env : Env) (elapsed : ℚ) (c : Ctrl) : Option (Ctrl × Option ℚ) :=
  let pattern := c.state.sos_pattern
  let idx := c.state.sos_index
  match pattern[idx]? with
  | none => none
  | some step =>
    if elapsed > step.duration then
      let newIdx := (idx + 1) % pattern.length
      match pattern[newIdx]? with
      | none => none
      | some step2 =>
        let c := { c with state := { c.state with sos_index := newIdx } }
        let c := set_light_state env.hwOk step2.state c
        some ({ c with state :=
          { c.state with last_state_change_time := env.now } }, none)
    else some (c, none)

/-- `handle_s_bahn_mode` (`modes.py` lines 34-40). -/
def handle_s_bahn_mode (env : Env) (_elapsed : ℚ) (c : Ctrl) : Ctrl × Option ℚ :=
  let minutes := c.state.s_bahn_minutes_away
  let col := c.state.current_color
  if minutes = -1 then
    (set_light_state env.hwOk (if col ≠ "red" then "red" else "off") c, some (1/2))
  else if minutes < 9 then
    (set_light_state env.hwOk "red" c, none)
  else if minutes = 9 then
    (set_light_state env.hwOk (if col ≠ "yellow" then "yellow" else "off") c, some (1/2))
  else if minutes ≤ 12 then
    (set_light_state env.hwOk "yellow" c, none)
  else
    (set_light_state env.hwOk "green" c, none)

/-- `handle_biergarten_mode` (`modes.py` lines 42-47). -/
def handle_biergarten_mode (env : Env) (_elapsed : ℚ) (c : Ctrl) : Ctrl × Option ℚ :=
  match c.state.weather_temp, c.state.weather_condition with
  | some temp, some cond =>
    if env.local_hour < 16 ∨ temp < 15 ∨
        strContains cond "Rain" = true ∨ strContains cond "Snow" = true then
      (set_light_state env.hwOk "red" c, none)
    else if temp < 18 ∨ strContains cond "Clouds" = true then
      (set_light_state env.hwOk "yellow" c, none)
    else
      (set_light_state env.hwOk "green" c, none)
  | _, _ =>
    (set_light_state env.hwOk
      (if c.state.current_color ≠ "red" then "red" else "off") c, some (1/2))

/-- `handle_racing_mode` (`modes.py` lines 49-57). -/
def handle_racing_mode (env : Env) (elapsed : ℚ) (c : Ctrl) : Ctrl × Option ℚ :=
  let step := c.state.race_step
  if step < 4 then
    if step = 0 ∧ elapsed > 1 then
      let c := set_light_state env.hwOk "red" c
      ({ c with state := { c.state with race_step := c.state.race_step + 1, last_state_change_time := env.now } }, none)
    else if step = 1 ∧ elapsed > 1 then
      let c := set_light_state env.hwOk "red_and_yellow" c
      ({ c with state := { c.state with race_step := c.state.race_step + 1, last_state_change_time := env.now } }, none)
    else if step = 2 ∧ elapsed > 1 then
      let c := set_light_state env.hwOk "all_on" c
      ({ c with state := { c.state with race_step := c.state.race_step + 1, last_state_change_time := env.now } }, none)
    else if step = 3 ∧ elapsed > 1 then
      let c := set_light_state env.hwOk "off" c
      ({ c with state := { c.state with race_step := c.state.race_step + 1, last_state_change_time := env.now } }, none)
    else (c, none)
  else
    let live := if c.state.iracing_light_status ≠ "black"
      then c.state.iracing_light_status else "off"
    (set_light_state env.hwOk live c, some (5/100))

/-- `handle_space_mode` (`modes.py` lines 59-63). -/
def handle_space_mode (env : Env) (_elapsed : ℚ) (c : Ctrl) : Ctrl × Option ℚ :=
  let col := c.state.current_color
  match c.state.space_weather_kp with
  | none =>
    (set_light_state env.hwOk (if col ≠ "red" then "red" else "off") c, some (1/2))
  | some kp =>
    if kp ≥ 5 then
      (set_light_state env.hwOk (if col ≠ "red" then "red" else "off") c, some (1/2))
    else if kp = 4 then
      (set_light_state env.hwOk "yellow" c, none)
    else
      (set_light_state env.hwOk "green" c, none)

/-- `handle_stau_mode` (`modes.py` lines 65-70). -/
def handle_stau_mode (env : Env) (_elapsed : ℚ) (c : Ctrl) : Ctrl × Option ℚ :=
  let col := c.state.current_color
  match c.state.traffic_avg_delay with
  | none =>
    (set_light_state env.hwOk (if col ≠ "red" then "red" else "off") c, some (1/2))
  | some delay =>
    if delay > 45 then (set_light_state env.hwOk "red" c, none)
    else if delay > 20 then (set_light_state env.hwOk "yellow" c, none)
    else (set_light_state env.hwOk "green" c, none)

/-- The common type of an entry of the `mode_handlers` dict: a handler
may in principle raise (only `handle_sos_mode` can, on an
out-of-range index), hence the `Option`. -/
def Handler : Type :=
  Env → ℚ → Ctrl → Option (Ctrl × Option ℚ)

/-- Wrap a handler that never raises as a dict entry. -/
def asTotal (h : Env → ℚ → Ctrl → Ctrl × Option ℚ) : Handler :=
  fun env elapsed c => some (h env elapsed c)

/-- The `mode_handlers` dict of `TrafficLightController.__init__`
(`controller.py` lines 112-122), as the partial lookup function
`.get` it is used through. -/
def mode_handlers (m : String) : Option Handler :=
  if m = "auto" then some (asTotal handle_auto_mode)
  else if m = "party" then some (asTotal handle_party_mode)
  else if m = "emergency" then some (asTotal handle_emergency_mode)
  else if m = "sos" then some handle_sos_mode
  else if m = "s_bahn" then some (asTotal handle_s_bahn_mode)
  else if m = "biergarten" then some (asTotal handle_biergarten_mode)
  else if m = "racing" then some (asTotal handle_racing_mode)
  else if m = "space" then some (asTotal handle_space_mode)
  else if m = "stau" then some (asTotal handle_stau_mode)
  else none

/-- The dispatch step of one iteration of `TrafficLightController.run`
(`controller.py` lines 221-226): look up the handler for
`current_mode`; when there is none, nothing happens and the sleep
stays `loop_sleep`; a handler's returned custom sleep, when not
`None`, replaces it.  `none` models an exception escaping the
handler (which would kill the loop thread). -/
def dispatch (env : Env) (elapsed : ℚ) (loop_sleep : ℚ) (c : Ctrl) : Option (Ctrl × ℚ) :=
  match mode_handlers c.state.current_mode with
  | none => some (c, loop_sleep)
  | some h => (h env elapsed c).map fun p => (p.1, p.2.getD loop_sleep)

/-- One full iteration of the `while` body of
`TrafficLightController.run` (`controller.py` lines 206-228):
pending transition, manual override, elapsed computation, dispatch.
Returns the new controller state and the sleep for this tick. -/
def loop_iter (env : Env) (c : Ctrl) : Option (Ctrl × ℚ) :=
  let c := if c.state.current_mode ≠ c.state.target_mode
    then transition_to_mode env.now env.hwOk c.state.target_mode c else c
  let c := if c.state.current_mode = "manual"
    then set_light_state env.hwOk c.state.target_manual_color c else c
  let elapsed := env.now - c.state.last_state_change_time
  dispatch env elapsed CONTROLLER_LOOP_SLEEP c

/-- The nine keys of the `mode_handlers` dict (`controller.py`
lines 112-122). -/
def registered_modes : List String :=
  ["auto", "party", "emergency", "sos", "s_bahn", "biergarten", "racing", "space", "stau"]

/-- Repeated invocation of `handle_sos_mode`, one call per entry of
`es` (the elapsed value seen by that call); stops with `none` if any
call raises. -/
def sos_run (env : Env) : List ℚ → Ctrl → Option Ctrl
  | [], c => some c
  | e :: rest, c =>
    match handle_sos_mode env e c with
    | none => none
    | some p => sos_run env rest p.1

/-- A sample runtime environment for concrete evaluations. -/
def env0 : Env :=
  { now := 100, hwOk := true, party_choice := "red", local_hour := 12 }

/-- A freshly constructed controller (dataclass defaults, empty
hardware trace), with the `default_factory` timestamp taken as 0. -/
def ctrl0 : Ctrl :=
  { state := SharedState.init 0, hw := [] }

/-- A controller sitting in manual mode. -/
def ctrlManual : Ctrl :=
  { state := { SharedState.init 0 with current_mode := "manual", target_mode := "manual" }, hw := [] }

/-- A controller in auto mode currently showing green. -/
def ctrlGreen : Ctrl :=
  { state := { SharedState.init 0 with current_color := "green" }, hw := [] }

/-- A controller freshly transitioned into SOS mode. -/
def ctrlSos : Ctrl :=
  { state := { SharedState.init 0 with current_mode := "sos", current_color := "off", sos_index := 0 }, hw := [] }

/-- A controller in s_bahn mode with the given minutes-away reading. -/
def mkSBahn (m : Int) : Ctrl :=
  { state := { SharedState.init 0 with current_mode := "s_bahn", s_bahn_minutes_away := m }, hw := [] }

/-- A controller in space mode with the given Kp reading. -/
def mkSpace (kp : Option Int) : Ctrl :=
  { state := { SharedState.init 0 with current_mode := "space", space_weather_kp := kp }, hw := [] }

/-- `set_light_state` never touches `last_state_change_time`. -/
theorem set_light_state_last_time (hwOk : Bool) (color : String) (c : Ctrl) :
    (set_light_state hwOk color c).state.last_state_change_time =
      c.state.last_state_change_time := by
  unfold set_light_state
  split_ifs <;> rfl

/-- On a successful hardware write the committed color is reached
(also when it was already showing). -/
theorem set_light_state_color (color : String) (c : Ctrl) :
    (set_light_state true color c).state.current_color = color := by
  unfold set_light_state
  split_ifs with h h2
  · exact h
  · rfl
  · exact absurd rfl h2

/-- `set_light_state` never touches the mode-scratch fields. -/
theorem set_light_state_scratch (hwOk : Bool) (color : String) (c : Ctrl) :
    (set_light_state hwOk color c).state.next_auto_state = c.state.next_auto_state ∧
    (set_light_state hwOk color c).state.sos_index = c.state.sos_index ∧
    (set_light_state hwOk color c).state.race_step = c.state.race_step ∧
    (set_light_state hwOk color c).state.sos_pattern = c.state.sos_pattern := by
  unfold set_light_state
  split_ifs <;> exact ⟨rfl, rfl, rfl, rfl⟩

/-- C1 counterexample.  The claim says (a) a color-changing
`setColor` updates `lastStateChangeTime` itself and (b) a mode change
alone never updates it.  Both parts fail on the code: from the fresh
state (color "unknown", timestamp 0), `set_light_state` commits "red"
yet leaves the timestamp at 0, while `_transition_to_mode` to "party"
(whose entry commits no color) moves the timestamp to 5. -/
theorem C1_counterexample :
    ((set_light_state true "red" ctrl0).state.current_color = "red" ∧
     ctrl0.state.current_color ≠ "red" ∧
     (set_light_state true "red" ctrl0).state.last_state_change_time =
       ctrl0.state.last_state_change_time) ∧
    ((transition_to_mode 5 true "party" ctrl0).state.current_color =
       ctrl0.state.current_color ∧
     (transition_to_mode 5 true "party" ctrl0).hw = ctrl0.hw ∧
     (transition_to_mode 5 true "party" ctrl0).state.last_state_change_time ≠
       ctrl0.state.last_state_change_time) := by
  decide

/-- C1 (amended): `setColor` itself never updates
`lastStateChangeTime`, and every mode transition unconditionally sets
`lastStateChangeTime` to the current time, even when it commits no new
color; the callers that change color (`run`'s preamble and the
auto/sos/racing handlers) stamp it separately. -/
theorem C1_stamp_discipline :
    (∀ (hwOk : Bool) (color : String) (c : Ctrl),
      (set_light_state hwOk color c).state.last_state_change_time =
        c.state.last_state_change_time) ∧
    (∀ (now : ℚ) (hwOk : Bool) (m : String) (c : Ctrl),
      (transition_to_mode now hwOk m c).state.last_state_change_time = now) := by
  refine ⟨set_light_state_last_time, ?_⟩
  intro now hwOk m c
  unfold transition_to_mode
  split_ifs <;> simp [set_light_state_last_time]

/-- C2: re-requesting the current color is a complete no-op (no GPIO
call, no state change), and two consecutive `set_light_state c` calls
from a different starting color perform exactly one hardware write and
leave `lastStateChangeTime` untouched. -/
theorem C2_setcolor_idempotent :
    (∀ (hwOk : Bool) (color : String) (c : Ctrl),
      c.state.current_color = color → set_light_state hwOk color c = c) ∧
    (∀ (color : String) (c : Ctrl), c.state.current_color ≠ color →
      set_light_state true color (set_light_state true color c) =
        set_light_state true color c ∧
      (set_light_state true color (set_light_state true color c)).hw =
        c.hw ++ [color] ∧
      (set_light_state true color
          (set_light_state true color c)).state.last_state_change_time =
        c.state.last_state_change_time) := by
  constructor
  · intro hwOk color c h
    unfold set_light_state
    rw [if_pos h]
  · intro color c h
    have h1 : set_light_state true color c =
        { state := { c.state with current_color := color }, hw := c.hw ++ [color] } := by
      unfold set_light_state
      rw [if_neg h, if_pos rfl]
    have h2 : set_light_state true color
        ({ state := { c.state with current_color := color },
           hw := c.hw ++ [color] } : Ctrl) =
        { state := { c.state with current_color := color }, hw := c.hw ++ [color] } := by
      unfold set_light_state
      rw [if_pos rfl]
    rw [h1, h2]
    exact ⟨rfl, rfl, rfl⟩

/-- Witness for C2 at concrete inputs: a no-op re-request on the fresh
state, and a red request repeated from "unknown" writing hardware
exactly once. -/
theorem C2_witness :
    set_light_state true "unknown" ctrl0 = ctrl0 ∧
    (set_light_state true "red" (set_light_state true "red" ctrl0)).hw = ["red"] := by
  constructor
  · exact C2_setcolor_idempotent.1 true "unknown" ctrl0 rfl
  · have h := (C2_setcolor_idempotent.2 "red" ctrl0 (by decide)).2.1
    simpa [ctrl0] using h

/-- C7: `set_mode` on the currently active mode sets
`targetMode = "idle"`, on any other mode sets `targetMode` to it, and
in both cases changes no other field of the shared state (nor the
hardware trace). -/
theorem C7_set_mode_toggle (m : String) (c : Ctrl) :
    (c.state.current_mode = m →
      set_mode m c = { c with state := { c.state with target_mode := "idle" } }) ∧
    (c.state.current_mode ≠ m →
      set_mode m c = { c with state := { c.state with target_mode := m } }) := by
  constructor
  · intro h
    unfold set_mode
    rw [if_pos h]
  · intro h
    unfold set_mode
    rw [if_neg h]

/-- Witness for C7: the spec's own example — selecting "party" while
in auto mode targets party; selecting "auto" while in auto mode
toggles off to idle. -/
theorem C7_witness :
    set_mode "party" ctrl0 =
      { ctrl0 with state := { ctrl0.state with target_mode := "party" } } ∧
    set_mode "auto" ctrl0 =
      { ctrl0 with state := { ctrl0.state with target_mode := "idle" } } := by
  exact ⟨(C7_set_mode_toggle "party" ctrl0).2 (by decide),
         (C7_set_mode_toggle "auto" ctrl0).1 rfl⟩

/-- C8: when the hardware write raises during a color-changing
`set_light_state`, the whole shared state (in particular
`currentColor`) is left exactly as it was, the call returns normally
with just the one failed attempt recorded (no retry inside the call),
and a subsequent request for a different color succeeds normally
(supersession). -/
theorem C8_setcolor_failure_atomic (color : String) (c : Ctrl)
    (h : c.state.current_color ≠ color) :
    set_light_state false color c = { c with hw := c.hw ++ [color] } ∧
    (set_light_state false color c).state.current_color = c.state.current_color ∧
    (∀ c2 : String, c2 ≠ c.state.current_color →
      (set_light_state true c2 (set_light_state false color c)).state.current_color = c2) := by
  have h1 : set_light_state false color c = { c with hw := c.hw ++ [color] } := by
    unfold set_light_state
    rw [if_neg h]
    rfl
  refine ⟨h1, by rw [h1], ?_⟩
  intro c2 _
  exact set_light_state_color c2 _

/-- Witness for C8: a failed "red" write on the fresh state leaves the
state intact and records one attempt; a following successful "green"
write supersedes it. -/
theorem C8_witness :
    set_light_state false "red" ctrl0 = { ctrl0 with hw := ["red"] } ∧
    (set_light_state true "green" (set_light_state false "red" ctrl0)).state.current_color
      = "green" := by
  have h := C8_setcolor_failure_atomic "red" ctrl0 (by decide)
  refine ⟨by simpa [ctrl0] using h.1, h.2.2 "green" (by decide)⟩

/-- C9 counterexample: a freshly created `SharedState` does not have
`currentMode = "unknown"`; its dataclass default is `"auto"`
(`state.py` line 20). -/
theorem C9_counterexample :
    (SharedState.init 0).current_mode = "auto" ∧ ("auto" : String) ≠ "unknown" := by
  decide

/-- C9 (amended): a freshly created `SharedState` has
`currentMode = targetMode = "auto"` and `currentColor = "unknown"`,
and the control loop, before its first iteration and whatever the
shared state holds, forces the color to green and stamps
`lastStateChangeTime`. -/
theorem C9_startup (t0 now : ℚ) (c : Ctrl) :
    (SharedState.init t0).current_mode = "auto" ∧
    (SharedState.init t0).target_mode = "auto" ∧
    (SharedState.init t0).current_color = "unknown" ∧
    (run_start now true c).state.current_color = "green" ∧
    (run_start now true c).state.last_state_change_time = now := by
  refine ⟨rfl, rfl, rfl, ?_, rfl⟩
  show (set_light_state true "green" c).state.current_color = "green"
  exact set_light_state_color "green" c

/-- C10: the handler dict holds exactly the nine registered modes, and
the dispatch step of a loop iteration under any other `currentMode`
(manual, idle, or an arbitrary unrecognized tag) finds no handler,
invokes nothing, leaves the controller — shared state and hardware —
entirely unchanged, and does not fail. -/
theorem C10_dispatch_table (m : String) (env : Env) (elapsed ls : ℚ) (c : Ctrl) :
    ((mode_handlers m).isSome ↔ m ∈ registered_modes) ∧
    (c.state.current_mode ∉ registered_modes →
      dispatch env elapsed ls c = some (c, ls)) := by
  constructor
  · unfold mode_handlers registered_modes
    split_ifs with h1 h2 h3 h4 h5 h6 h7 h8 h9 <;> simp_all
  · intro hm
    simp only [registered_modes, List.mem_cons, List.not_mem_nil, or_false] at hm
    push_neg at hm
    obtain ⟨h1, h2, h3, h4, h5, h6, h7, h8, h9⟩ := hm
    unfold dispatch mode_handlers
    rw [if_neg h1, if_neg h2, if_neg h3, if_neg h4, if_neg h5, if_neg h6,
        if_neg h7, if_neg h8, if_neg h9]

/-- Witness for C10 at `currentMode = "manual"`: no handler is looked
up and the dispatch step is an observable no-op. -/
theorem C10_witness :
    dispatch env0 0 (1/5) ctrlManual = some (ctrlManual, 1/5) ∧
    ¬ (mode_handlers "manual").isSome := by
  have h := C10_dispatch_table "manual" env0 0 (1/5) ctrlManual
  exact ⟨h.2 (by decide), fun hs =>
    (by decide : "manual" ∉ registered_modes) (h.1.mp hs)⟩

/-- C3: the auto-mode handler follows the 4-phase cycle with the exact
strict thresholds 20s/3s/20s/2s, commits the documented colors and
`nextAutoState` values under a healthy hardware write, and changes
nothing at or below each threshold. -/
theorem C3_auto_cycle (env : Env) (elapsed : ℚ) (c : Ctrl) (he : env.hwOk = true) :
    (c.state.current_color = "green" → elapsed > 20 →
      (handle_auto_mode env elapsed c).1.state.current_color = "yellow" ∧
      (handle_auto_mode env elapsed c).1.state.next_auto_state = "red" ∧
      (handle_auto_mode env elapsed c).1.state.last_state_change_time = env.now) ∧
    (c.state.current_color = "yellow" → elapsed > 3 →
      (handle_auto_mode env elapsed c).1.state.current_color =
        c.state.next_auto_state ∧
      (handle_auto_mode env elapsed c).1.state.last_state_change_time = env.now) ∧
    (c.state.current_color = "red" → elapsed > 20 →
      (handle_auto_mode env elapsed c).1.state.current_color = "red_and_yellow" ∧
      (handle_auto_mode env elapsed c).1.state.next_auto_state = "green" ∧
      (handle_auto_mode env elapsed c).1.state.last_state_change_time = env.now) ∧
    (c.state.current_color = "red_and_yellow" → elapsed > 2 →
      (handle_auto_mode env elapsed c).1.state.current_color =
        c.state.next_auto_state ∧
      (handle_auto_mode env elapsed c).1.state.last_state_change_time = env.now) ∧
    (c.state.current_color = "green" → elapsed ≤ 20 →
      handle_auto_mode env elapsed c = (c, none)) ∧
    (c.state.current_color = "yellow" → elapsed ≤ 3 →
      handle_auto_mode env elapsed c = (c, none)) ∧
    (c.state.current_color = "red" → elapsed ≤ 20 →
      handle_auto_mode env elapsed c = (c, none)) ∧
    (c.state.current_color = "red_and_yellow" → elapsed ≤ 2 →
      handle_auto_mode env elapsed c = (c, none)) := by
  refine ⟨?_, ?_, ?_, ?_, ?_, ?_, ?_, ?_⟩ <;> intro h1 h2
  · rw [show (20 : ℚ) = AUTO_GREEN_DURATION from rfl] at h2
    simp [handle_auto_mode, h1, h2, he, set_light_state_color]
  · rw [show (3 : ℚ) = AUTO_YELLOW_DURATION from rfl] at h2
    simp [handle_auto_mode, h1, h2, he, set_light_state_color]
  · rw [show (20 : ℚ) = AUTO_RED_DURATION from rfl] at h2
    simp [handle_auto_mode, h1, h2, he, set_light_state_color]
  · rw [show (2 : ℚ) = AUTO_RED_YELLOW_DURATION from rfl] at h2
    simp [handle_auto_mode, h1, h2, he, set_light_state_color]
  · have h3 : ¬ elapsed > AUTO_GREEN_DURATION := by
      rw [show AUTO_GREEN_DURATION = (20 : ℚ) from rfl]; exact not_lt.mpr h2
    simp [handle_auto_mode, h1, h3]
  · have h3 : ¬ elapsed > AUTO_YELLOW_DURATION := by
      rw [show AUTO_YELLOW_DURATION = (3 : ℚ) from rfl]; exact not_lt.mpr h2
    simp [handle_auto_mode, h1, h3]
  · have h3 : ¬ elapsed > AUTO_RED_DURATION := by
      rw [show AUTO_RED_DURATION = (20 : ℚ) from rfl]; exact not_lt.mpr h2
    simp [handle_auto_mode, h1, h3]
  · have h3 : ¬ elapsed > AUTO_RED_YELLOW_DURATION := by
      rw [show AUTO_RED_YELLOW_DURATION = (2 : ℚ) from rfl]; exact not_lt.mpr h2
    simp [handle_auto_mode, h1, h3]

/-- Witness for C3, the spec's concrete trace: from green at 21s the
handler yields yellow with `nextAutoState = red`; invoking it again on
that result at 4s yields red. -/
theorem C3_witness :
    (handle_auto_mode env0 21 ctrlGreen).1.state.current_color = "yellow" ∧
    (handle_auto_mode env0 21 ctrlGreen).1.state.next_auto_state = "red" ∧
    (handle_auto_mode env0 4
      (handle_auto_mode env0 21 ctrlGreen).1).1.state.current_color = "red" := by
  have h1 := (C3_auto_cycle env0 21 ctrlGreen rfl).1 (by decide) (by norm_num)
  have h2 := (C3_auto_cycle env0 4 (handle_auto_mode env0 21 ctrlGreen).1 rfl).2.1
    h1.1 (by norm_num)
  exact ⟨h1.1, h1.2.1, by rw [h2.1, h1.2.1]⟩

/-- C5: the s_bahn handler's thresholds, exactly: `minutes = -1` is the
red/off blink with a 0.5s override; `minutes < 9` (other than -1) is
solid red; `minutes = 9` the yellow/off blink with a 0.5s override;
`9 < minutes ≤ 12` solid yellow; `minutes > 12` solid green. -/
theorem C5_s_bahn_thresholds (env : Env) (elapsed : ℚ) (c : Ctrl)
    (he : env.hwOk = true) :
    (c.state.s_bahn_minutes_away = -1 →
      (handle_s_bahn_mode env elapsed c).1.state.current_color =
        (if c.state.current_color ≠ "red" then "red" else "off") ∧
      (handle_s_bahn_mode env elapsed c).2 = some (1/2)) ∧
    (c.state.s_bahn_minutes_away ≠ -1 → c.state.s_bahn_minutes_away < 9 →
      (handle_s_bahn_mode env elapsed c).1.state.current_color = "red" ∧
      (handle_s_bahn_mode env elapsed c).2 = none) ∧
    (c.state.s_bahn_minutes_away = 9 →
      (handle_s_bahn_mode env elapsed c).1.state.current_color =
        (if c.state.current_color ≠ "yellow" then "yellow" else "off") ∧
      (handle_s_bahn_mode env elapsed c).2 = some (1/2)) ∧
    (9 < c.state.s_bahn_minutes_away → c.state.s_bahn_minutes_away ≤ 12 →
      (handle_s_bahn_mode env elapsed c).1.state.current_color = "yellow" ∧
      (handle_s_bahn_mode env elapsed c).2 = none) ∧
    (12 < c.state.s_bahn_minutes_away →
      (handle_s_bahn_mode env elapsed c).1.state.current_color = "green" ∧
      (handle_s_bahn_mode env elapsed c).2 = none) := by
  refine ⟨?_, ?_, ?_, ?_, ?_⟩
  · intro h1
    simp [handle_s_bahn_mode, h1, he, set_light_state_color]
  · intro h1 h2
    simp [handle_s_bahn_mode, h1, h2, he, set_light_state_color]
  · intro h1
    have h2 : ¬ c.state.s_bahn_minutes_away = -1 := by omega
    have h3 : ¬ c.state.s_bahn_minutes_away < 9 := by omega
    simp [handle_s_bahn_mode, h1, h2, h3, he, set_light_state_color]
  · intro h1 h2
    have h3 : ¬ c.state.s_bahn_minutes_away = -1 := by omega
    have h4 : ¬ c.state.s_bahn_minutes_away < 9 := by omega
    have h5 : ¬ c.state.s_bahn_minutes_away = 9 := by omega
    simp [handle_s_bahn_mode, h2, h3, h4, h5, he, set_light_state_color]
  · intro h1
    have h2 : ¬ c.state.s_bahn_minutes_away = -1 := by omega
    have h3 : ¬ c.state.s_bahn_minutes_away < 9 := by omega
    have h4 : ¬ c.state.s_bahn_minutes_away = 9 := by omega
    have h5 : ¬ c.state.s_bahn_minutes_away ≤ 12 := by omega
    simp [handle_s_bahn_mode, h2, h3, h4, h5, he, set_light_state_color]

/-- Witness for C5, the spec's boundary table: minutes 8 → red,
9 → blinking yellow (from a non-yellow light) with a 0.5s override,
12 → yellow, 13 → green, -1 → blinking red (from a non-red light)
with a 0.5s override. -/
theorem C5_witness :
    (handle_s_bahn_mode env0 0 (mkSBahn 8)).1.state.current_color = "red" ∧
    ((handle_s_bahn_mode env0 0 (mkSBahn 9)).1.state.current_color = "yellow" ∧
      (handle_s_bahn_mode env0 0 (mkSBahn 9)).2 = some (1/2)) ∧
    (handle_s_bahn_mode env0 0 (mkSBahn 12)).1.state.current_color = "yellow" ∧
    (handle_s_bahn_mode env0 0 (mkSBahn 13)).1.state.current_color = "green" ∧
    ((handle_s_bahn_mode env0 0 (mkSBahn (-1))).1.state.current_color = "red" ∧
      (handle_s_bahn_mode env0 0 (mkSBahn (-1))).2 = some (1/2)) := by
  have h8 := ((C5_s_bahn_thresholds env0 0 (mkSBahn 8) rfl).2.1 (by decide) (by decide)).1
  have h9 := (C5_s_bahn_thresholds env0 0 (mkSBahn 9) rfl).2.2.1 rfl
  have h12 := ((C5_s_bahn_thresholds env0 0 (mkSBahn 12) rfl).2.2.2.1
    (by decide) (by decide)).1
  have h13 := ((C5_s_bahn_thresholds env0 0 (mkSBahn 13) rfl).2.2.2.2 (by decide)).1
  have hm1 := (C5_s_bahn_thresholds env0 0 (mkSBahn (-1)) rfl).1 rfl
  refine ⟨h8, ⟨?_, h9.2⟩, h12, h13, ⟨?_, hm1.2⟩⟩
  · rw [h9.1]
    decide
  · rw [hm1.1]
    decide

/-- C6: the space-weather handler, literally as written: missing Kp or
`Kp ≥ 5` gives the degraded red/off blink with a 0.5s override (not
solid red); `Kp = 4` solid yellow; `Kp ≤ 3` solid green. -/
theorem C6_space_rule (env : Env) (elapsed : ℚ) (c : Ctrl) (he : env.hwOk = true) :
    (c.state.space_weather_kp = none →
      (handle_space_mode env elapsed c).1.state.current_color =
        (if c.state.current_color ≠ "red" then "red" else "off") ∧
      (handle_space_mode env elapsed c).2 = some (1/2)) ∧
    (∀ kp : Int, c.state.space_weather_kp = some kp →
      (5 ≤ kp →
        (handle_space_mode env elapsed c).1.state.current_color =
          (if c.state.current_color ≠ "red" then "red" else "off") ∧
        (handle_space_mode env elapsed c).2 = some (1/2)) ∧
      (kp = 4 →
        (handle_space_mode env elapsed c).1.state.current_color = "yellow" ∧
        (handle_space_mode env elapsed c).2 = none) ∧
      (kp ≤ 3 →
        (handle_space_mode env elapsed c).1.state.current_color = "green" ∧
        (handle_space_mode env elapsed c).2 = none)) := by
  refine ⟨?_, ?_⟩
  · intro h1
    simp [handle_space_mode, h1, he, set_light_state_color]
  · intro kp hkp
    refine ⟨?_, ?_, ?_⟩
    · intro h1
      simp [handle_space_mode, hkp, h1, he, set_light_state_color]
    · intro h1
      have h2 : ¬ (5 : Int) ≤ kp := by omega
      simp [handle_space_mode, hkp, h1, h2, he, set_light_state_color]
    · intro h1
      have h2 : ¬ (5 : Int) ≤ kp := by omega
      have h3 : ¬ kp = 4 := by omega
      simp [handle_space_mode, hkp, h2, h3, he, set_light_state_color]

/-- Witness for C6: Kp 3 → green, Kp 4 → yellow, Kp 5 and missing
Kp → the blinking branch (red from a non-red light) with the 0.5s
override. -/
theorem C6_witness :
    (handle_space_mode env0 0 (mkSpace (some 3))).1.state.current_color = "green" ∧
    (handle_space_mode env0 0 (mkSpace (some 4))).1.state.current_color = "yellow" ∧
    ((handle_space_mode env0 0 (mkSpace (some 5))).1.state.current_color = "red" ∧
      (handle_space_mode env0 0 (mkSpace (some 5))).2 = some (1/2)) ∧
    ((handle_space_mode env0 0 (mkSpace none)).1.state.current_color = "red" ∧
      (handle_space_mode env0 0 (mkSpace none)).2 = some (1/2)) := by
  have h3 := (((C6_space_rule env0 0 (mkSpace (some 3)) rfl).2 3 rfl).2.2 (by decide)).1
  have h4 := (((C6_space_rule env0 0 (mkSpace (some 4)) rfl).2 4 rfl).2.1 rfl).1
  have h5 := ((C6_space_rule env0 0 (mkSpace (some 5)) rfl).2 5 rfl).1 (by decide)
  have hn := (C6_space_rule env0 0 (mkSpace none) rfl).1 rfl
  refine ⟨h3, h4, ⟨?_, h5.2⟩, ⟨?_, hn.2⟩⟩
  · rw [h5.1]
    decide
  · rw [hn.1]
    decide

/-- The SOS pattern has 18 steps. -/
theorem default_sos_pattern_length : default_sos_pattern.length = 18 := rfl

/-- Every SOS step duration is below 2 seconds. -/
theorem default_sos_pattern_durations :
    ∀ s ∈ default_sos_pattern, s.duration < 2 := by
  intro s hs
  fin_cases hs <;> norm_num

/-- One advancing invocation of the SOS handler: with the standard
pattern, an in-range index and an elapsed value above the current
step's duration, the handler succeeds, advances the index by one
modulo 18 and (on a healthy write) shows the new step's color. -/
theorem handle_sos_step (env : Env) (elapsed : ℚ) (c : Ctrl)
    (hp : c.state.sos_pattern = default_sos_pattern)
    (hi : c.state.sos_index < 18)
    (hd : elapsed > (default_sos_pattern.getD c.state.sos_index ⟨"off", 0⟩).duration) :
    ∃ c2, handle_sos_mode env elapsed c = some (c2, none) ∧
      c2.state.sos_pattern = default_sos_pattern ∧
      c2.state.sos_index = (c.state.sos_index + 1) % 18 ∧
      (env.hwOk = true → c2.state.current_color =
        (default_sos_pattern.getD ((c.state.sos_index + 1) % 18) ⟨"off", 0⟩).state) := by
  have hi' : c.state.sos_index < default_sos_pattern.length := by
    rw [default_sos_pattern_length]
    exact hi
  have hi2 : (c.state.sos_index + 1) % 18 < default_sos_pattern.length := by
    rw [default_sos_pattern_length]
    exact Nat.mod_lt _ (by norm_num)
  rw [List.getD_eq_getElem _ _ hi'] at hd
  simp only [handle_sos_mode, hp, default_sos_pattern_length,
    List.getElem?_eq_getElem hi', List.getElem?_eq_getElem hi2, if_pos hd]
  refine ⟨_, rfl, ?_, ?_, ?_⟩
  · exact (set_light_state_scratch _ _ _).2.2.2
  · exact (set_light_state_scratch _ _ _).2.1
  · intro he
    rw [he, set_light_state_color, List.getD_eq_getElem _ _ hi2]

/-- Feeding the SOS handler a sequence of `n` elapsed values of 2s
(each above every step duration) from an in-range index always
succeeds and advances the index by `n` modulo 18, the light showing
the color of the step reached. -/
theorem sos_run_replicate (env : Env) (he : env.hwOk = true) :
    ∀ (n : Nat) (c : Ctrl), c.state.sos_pattern = default_sos_pattern →
      c.state.sos_index < 18 →
      ∃ c2, sos_run env (List.replicate n 2) c = some c2 ∧
        c2.state.sos_pattern = default_sos_pattern ∧
        c2.state.sos_index = (c.state.sos_index + n) % 18 ∧
        (0 < n → c2.state.current_color =
          (default_sos_pattern.getD c2.state.sos_index ⟨"off", 0⟩).state) := by
  intro n
  induction n with
  | zero =>
    intro c hp hi
    exact ⟨c, rfl, hp, by omega, fun h => absurd h (by norm_num)⟩
  | succ n ih =>
    intro c hp hi
    have hi' : c.state.sos_index < default_sos_pattern.length := by
      rw [default_sos_pattern_length]
      exact hi
    have hd : (2 : ℚ) > (default_sos_pattern.getD c.state.sos_index ⟨"off", 0⟩).duration := by
      rw [List.getD_eq_getElem _ _ hi']
      exact default_sos_pattern_durations _ (List.getElem_mem hi')
    obtain ⟨c1, h1, hp1, hidx1, hcol1⟩ := handle_sos_step env 2 c hp hi hd
    have hi1 : c1.state.sos_index < 18 := by
      rw [hidx1]
      exact Nat.mod_lt _ (by norm_num)
    obtain ⟨c2, h2, hp2, hidx2, hcol2⟩ := ih c1 hp1 hi1
    refine ⟨c2, ?_, hp2, ?_, ?_⟩
    · rw [List.replicate_succ]
      simp only [sos_run, h1]
      exact h2
    · rw [hidx2, hidx1]
      omega
    · intro _
      rcases Nat.eq_zero_or_pos n with hn | hn
      · subst hn
        have hc : c2 = c1 := by
          simpa [sos_run] using h2.symm
        rw [hc, hidx1]
        exact hcol1 he
      · exact hcol2 hn

/-- C4: SOS mode walks the fixed 18-step pattern.  Entering SOS mode
resets `sosIndex` to 0; an invocation whose elapsed time exceeds the
current step's duration advances `sosIndex` by one modulo 18 (so it
stays in 0..17) and commits the new step's color; and a run of
advancing invocations from index 0 visits index `n % 18` after `n`
steps — all 18 indices in order, wrapping to 0 after 17 — always
showing the color of the step reached. -/
theorem C4_sos_cycle (env : Env) (elapsed : ℚ) (c : Ctrl)
    (hp : c.state.sos_pattern = default_sos_pattern)
    (hi : c.state.sos_index < 18)
    (he : env.hwOk = true) :
    (∀ (now : ℚ) (hwOk : Bool),
      (transition_to_mode now hwOk "sos" c).state.sos_index = 0) ∧
    (elapsed > (default_sos_pattern.getD c.state.sos_index ⟨"off", 0⟩).duration →
      ∃ c2, handle_sos_mode env elapsed c = some (c2, none) ∧
        c2.state.sos_index = (c.state.sos_index + 1) % 18 ∧
        c2.state.sos_index < 18 ∧
        c2.state.current_color =
          (default_sos_pattern.getD c2.state.sos_index ⟨"off", 0⟩).state) ∧
    (c.state.sos_index = 0 → ∀ n : Nat,
      ∃ c2, sos_run env (List.replicate n 2) c = some c2 ∧
        c2.state.sos_index = n % 18 ∧
        (0 < n → c2.state.current_color =
          (default_sos_pattern.getD (n % 18) ⟨"off", 0⟩).state)) := by
  refine ⟨?_, ?_, ?_⟩
  · intro now hwOk
    unfold transition_to_mode
    simp [set_light_state_scratch]
  · intro hd
    obtain ⟨c2, h1, hp1, hidx1, hcol1⟩ := handle_sos_step env elapsed c hp hi hd
    refine ⟨c2, h1, hidx1, ?_, ?_⟩
    · rw [hidx1]
      exact Nat.mod_lt _ (by norm_num)
    · rw [hidx1]
      exact hcol1 he
  · intro h0 n
    obtain ⟨c2, h1, _, hidx1, hcol1⟩ := sos_run_replicate env he n c hp hi
    rw [h0, Nat.zero_add] at hidx1
    refine ⟨c2, h1, hidx1, ?_⟩
    intro hn
    rw [← hidx1]
    exact hcol1 hn

/-- Witness for C4 on the fresh SOS state (index 0, showing off):
entering SOS keeps the index at 0; one invocation at 1s (above the
0.2s first step) advances to index 1 showing "off"; 18 advancing
invocations wrap back to index 0; 19 reach index 1. -/
theorem C4_witness :
    (transition_to_mode 7 true "sos" ctrlSos).state.sos_index = 0 ∧
    (∃ c2, handle_sos_mode env0 1 ctrlSos = some (c2, none) ∧
      c2.state.sos_index = 1 ∧ c2.state.current_color = "off") ∧
    (∃ c2, sos_run env0 (List.replicate 18 2) ctrlSos = some c2 ∧
      c2.state.sos_index = 0) ∧
    (∃ c2, sos_run env0 (List.replicate 19 2) ctrlSos = some c2 ∧
      c2.state.sos_index = 1) := by
  have h := C4_sos_cycle env0 1 ctrlSos rfl (by decide) rfl
  refine ⟨h.1 7 true, ?_, ?_, ?_⟩
  · obtain ⟨c2, h1, h2, _, h4⟩ := h.2.1 (by show (1 : ℚ) > 2/10; norm_num)
    refine ⟨c2, h1, h2, ?_⟩
    rw [h4, h2]
    rfl
  · obtain ⟨c2, h1, h2, _⟩ := h.2.2 rfl 18
    exact ⟨c2, h1, h2⟩
  · obtain ⟨c2, h1, h2, _⟩ := h.2.2 rfl 19
    exact ⟨c2, h1, h2⟩

end TrafficLight
